import Mathlib

set_option maxHeartbeats 1000000

/-!
Shallow embedding of the `bin_test` test sequencer (`src/main.py`).

Python floats are idealised as rationals (`ℚ`); Python `float(str)` literal
parsing is modelled by `parseFloatS` (optional sign, decimal digits with an
optional fraction part and an optional decimal exponent; the special forms
`inf`/`nan`/underscore separators never occur in the scripts this runner
sees and are outside the model).  External instrument processes are
abstracted by an oracle (`Env.tool`) giving the outcome of the n-th child
invocation; the child command vectors only select which instrument runs
and are absorbed by the oracle, while the human-readable description
strings (which feed error messages) are kept.  `time.sleep` and file
writes are no-ops for the state the claims speak about; the report file is
modelled by the finalized case list plus a generated/not-generated flag.
-/

/-- Python `str.strip()` (whitespace at both ends), on the character list. -/
def stripChars (l : List Char) : List Char :=
  ((l.dropWhile Char.isWhitespace).reverse.dropWhile Char.isWhitespace).reverse

def ofChars (l : List Char) : String := ⟨l⟩

def stripS (s : String) : String := ofChars (stripChars s.data)

/-- Python `str.upper()` (ASCII model). -/
def toUpperS (s : String) : String := ofChars (s.data.map Char.toUpper)

/-- Python `str.lower()` (ASCII model). -/
def toLowerS (s : String) : String := ofChars (s.data.map Char.toLower)

/-- Python `s.startswith(c)` for a one-character prefix. -/
def startsWithChar (s : String) (c : Char) : Bool :=
  match s.data with
  | [] => false
  | d :: _ => d = c

/-- Python `s.endswith(c)` for a one-character suffix. -/
def endsWithChar (s : String) (c : Char) : Bool :=
  match s.data.getLast? with
  | none => false
  | some d => d = c

/-- Does `l` start with `pat`?  (helper for substring containment). -/
def listStartsWith : List Char → List Char → Bool
  | _, [] => true
  | [], _ :: _ => false
  | c :: cs, p :: ps => (c == p) && listStartsWith cs ps

/-- Python `pat in hay` on strings: substring containment. -/
def listContains : List Char → List Char → Bool
  | [], pat => pat.isEmpty
  | c :: cs, pat => listStartsWith (c :: cs) pat || listContains cs pat

def containsSubstr (hay pat : String) : Bool := listContains hay.data pat.data

/-- Python `s.replace(xy, "")` for a two-character pattern, left-to-right
    non-overlapping (used by the source for `"ma"`, `"CH"`, `"ch"`). -/
def removePair (x y : Char) : List Char → List Char
  | [] => []
  | [c] => [c]
  | c :: d :: rest =>
      if c = x ∧ d = y then removePair x y rest
      else c :: removePair x y (d :: rest)

/-- Python `s.replace(x, "")` for a one-character pattern. -/
def removeChar (x : Char) : List Char → List Char
  | [] => []
  | c :: rest => if c = x then removeChar x rest else c :: removeChar x rest

def digitVal (c : Char) : ℕ := c.toNat - 48

def natOfDigits (l : List Char) : ℕ := l.foldl (fun a c => 10 * a + digitVal c) 0

def allDigits (l : List Char) : Bool := l.all Char.isDigit

/-- Mantissa of a float literal: digits with at most one dot, at least one
    digit overall. -/
def parseMantissa (l : List Char) : Option ℚ :=
  let ip := l.takeWhile (fun c => !(c == '.'))
  let rest := l.dropWhile (fun c => !(c == '.'))
  match rest with
  | [] => if ip ≠ [] ∧ allDigits ip then some (natOfDigits ip) else none
  | _ :: frac =>
      if allDigits ip ∧ allDigits frac ∧ (ip ≠ [] ∨ frac ≠ []) then
        some ((natOfDigits ip : ℚ) + (natOfDigits frac : ℚ) / (10 : ℚ) ^ frac.length)
      else none

/-- Split a float literal at the exponent marker `e`/`E`, if present. -/
def splitExp (l : List Char) : List Char × Option (List Char) :=
  let m := l.takeWhile (fun c => !(c == 'e' || c == 'E'))
  let r := l.dropWhile (fun c => !(c == 'e' || c == 'E'))
  match r with
  | [] => (m, none)
  | _ :: ex => (m, some ex)

def parseSignedInt (l : List Char) : Option ℤ :=
  match l with
  | '-' :: rest => if rest ≠ [] ∧ allDigits rest then some (-(natOfDigits rest : ℤ)) else none
  | '+' :: rest => if rest ≠ [] ∧ allDigits rest then some ((natOfDigits rest : ℤ)) else none
  | _ => if l ≠ [] ∧ allDigits l then some ((natOfDigits l : ℤ)) else none

def parseUnsignedFloat (l : List Char) : Option ℚ :=
  match splitExp l with
  | (m, none) => parseMantissa m
  | (m, some ex) =>
      match parseMantissa m, parseSignedInt ex with
      | some q, some k => some (q * (10 : ℚ) ^ k)
      | _, _ => none

def parseFloat (l : List Char) : Option ℚ :=
  match l with
  | '-' :: rest => (parseUnsignedFloat rest).map (fun q => -q)
  | '+' :: rest => parseUnsignedFloat rest
  | _ => parseUnsignedFloat l

/-- Python `float(s)`: strips surrounding whitespace, then parses. -/
def parseFloatS (s : String) : Option ℚ := parseFloat (stripChars s.data)

/-- Round to the nearest integer, ties to even (Python float→str rounding,
    idealised on ℚ). -/
def roundHalfEven (q : ℚ) : ℤ :=
  let f := ⌊q⌋
  let r := q - (f : ℚ)
  if r < 1 / 2 then f
  else if 1 / 2 < r then f + 1
  else if f % 2 = 0 then f else f + 1

def padZeros4 (n : ℕ) : String :=
  let s := toString n
  ofChars (List.replicate (4 - s.length) '0' ++ s.data)

/-- Python `f"{q:.4f}"` fixed-point formatting (idealised on ℚ). -/
def fmt4 (q : ℚ) : String :=
  let n := roundHalfEven (q * 10000)
  let sign := if q < 0 then "-" else ""
  let m := n.natAbs
  sign ++ toString (m / 10000) ++ "." ++ padZeros4 (m % 10000)

/-- Python `line.split()`: split on whitespace runs, dropping empty pieces.
    `acc` holds the characters of the token being built, reversed. -/
def tokenizeAux : List Char → List Char → List String
  | acc, [] => if acc.isEmpty then [] else [ofChars acc.reverse]
  | acc, c :: cs =>
      if c.isWhitespace then
        if acc.isEmpty then tokenizeAux [] cs
        else ofChars acc.reverse :: tokenizeAux [] cs
      else tokenizeAux (c :: acc) cs

def tokenize (s : String) : List String := tokenizeAux [] s.data

/-- Outcome of one external child-process invocation, as observed by
    `run_external_tool`: normal exit 0 with captured stdout, nonzero exit
    with captured stderr, a generic spawn/runtime exception, or a
    `KeyboardInterrupt` arriving while waiting on the child. -/
inductive ToolOutcome where
  | success (stdout : String)
  | failure (stderr : String)
  | excFail (msg : String)
  | interrupt
deriving DecidableEq

/-- The external world: outcome of the n-th child invocation and the
    time-of-day string of the n-th `strftime` call. -/
structure Env where
  tool : ℕ → ToolOutcome
  clock : ℕ → String

/-- One test case record (`self.current_test_data` dict in the source). -/
structure TestCase where
  id : String
  title : String
  result : String
  expected : List String
  actual : List String
  note : String
deriving DecidableEq

/-- The whole mutable `TestRunner` state, plus the two oracle cursors.
    `vars` (for `self.variables`) and `config` model Python dicts as insertion-ordered
    association lists; the three preset `config` keys hold `None` in the
    source, which an absent key models (they are only ever truthiness
    tested). -/
structure RunnerState where
  vars : List (String × ℚ)
  config : List (String × String)
  failed_tests : List String
  test_results : List TestCase
  current_test_data : Option TestCase
  current_test_id : String
  current_test_title : String
  toolIdx : ℕ
  clockIdx : ℕ
deriving DecidableEq

def initialState : RunnerState :=
  { vars := [], config := [], failed_tests := [], test_results := [],
    current_test_data := none, current_test_id := "N/A",
    current_test_title := "", toolIdx := 0, clockIdx := 0 }

/-- Python dict lookup. -/
def lookupVar (vs : List (String × ℚ)) (k : String) : Option ℚ :=
  match vs.find? (fun p => p.1 == k) with
  | some p => some p.2
  | none => none

/-- Python dict assignment (overwrite in place, else append). -/
def setStore (vs : List (String × ℚ)) (k : String) (v : ℚ) : List (String × ℚ) :=
  if vs.any (fun p => p.1 == k) then vs.map (fun p => if p.1 = k then (k, v) else p)
  else vs ++ [(k, v)]

def lookupConf (cs : List (String × String)) (k : String) : Option String :=
  match cs.find? (fun p => p.1 == k) with
  | some p => some p.2
  | none => none

def setConf (cs : List (String × String)) (k v : String) : List (String × String) :=
  if cs.any (fun p => p.1 == k) then cs.map (fun p => if p.1 = k then (k, v) else p)
  else cs ++ [(k, v)]

/-- `TestRunner.error` (src/main.py:48-59): print, append the
    `"id (title)"` entry to `failed_tests` (the membership test checks the
    bare id against the formatted entries, so it can only suppress an
    append if the bare id literally occurs as an entry), then set the open
    case (if any) to FAIL, appending `msg + "; "` to its note unless `msg`
    already occurs in the note as a substring. -/
def errorRec (s : RunnerState) (msg : String) : RunnerState :=
  let ft :=
    if s.current_test_id ∈ s.failed_tests then s.failed_tests
    else s.failed_tests ++ [s.current_test_id ++ " (" ++ s.current_test_title ++ ")"]
  match s.current_test_data with
  | none => { s with failed_tests := ft }
  | some c =>
      { s with failed_tests := ft,
               current_test_data := some { c with
                 result := "FAIL",
                 note := if containsSubstr c.note msg then c.note
                         else c.note ++ msg ++ "; " } }

/-- Why a line of the script aborted the run loop: `KeyboardInterrupt` or
    any other uncaught exception. -/
inductive AbortKind where
  | interrupt
  | fatal
deriving DecidableEq

/-- Result of executing a command: normal return or a propagating
    exception carrying the state mutated so far. -/
inductive ExecOut where
  | ok (s : RunnerState)
  | abort (k : AbortKind) (s : RunnerState)
deriving DecidableEq

/-- Result of `TestRunner.run_external_tool`: a returned value
    (`Some stdout.strip()` on exit 0, `None` on a recorded failure) or a
    re-raised `KeyboardInterrupt` after killing the child. -/
inductive ToolRet where
  | ret (s : RunnerState) (out : Option String)
  | interrupted (s : RunnerState)
deriving DecidableEq

/-- `TestRunner.run_external_tool` (src/main.py:61-92). -/
def run_external_tool (env : Env) (s : RunnerState) (desc : String) : ToolRet :=
  let o := env.tool s.toolIdx
  let s1 := { s with toolIdx := s.toolIdx + 1 }
  match o with
  | .success out => .ret s1 (some (stripS out))
  | .failure err => .ret (errorRec s1 ("工具执行失败 [" ++ desc ++ "]: " ++ stripS err)) none
  | .excFail m => .ret (errorRec s1 ("系统异常 [" ++ desc ++ "]: " ++ m)) none
  | .interrupt => .interrupted s1

/-- `TestRunner.parse_value` (src/main.py:94-117).  The `float(...)`
    failure messages are modelled without the CPython quoting. -/
def parse_value (vars : List (String × ℚ)) (valStr : String) : Except String ℚ :=
  let v := stripS valStr
  if startsWithChar v '$' then
    match lookupVar vars v with
    | some x => .ok x
    | none => .error ("使用了未定义的变量: " ++ v ++ " (请先使用 DEF_VAR 定义)")
  else if endsWithChar v '%' then
    match parseFloatS (ofChars v.data.dropLast) with
    | some x => .ok (x / 100)
    | none => .error ("could not convert string to float: " ++ ofChars v.data.dropLast)
  else
    let lower := toLowerS v
    if containsSubstr lower "ma" then
      match parseFloatS (ofChars (removePair 'm' 'a' lower.data)) with
      | some x => .ok (x / 1000)
      | none => .error ("could not convert string to float: " ++ ofChars (removePair 'm' 'a' lower.data))
    else if containsSubstr lower "a" then
      match parseFloatS (ofChars (removeChar 'a' lower.data)) with
      | some x => .ok x
      | none => .error ("could not convert string to float: " ++ ofChars (removeChar 'a' lower.data))
    else
      match parseFloatS v with
      | some x => .ok x
      | none => .error ("could not convert string to float: " ++ v)

/-- `TestRunner.cmd_def_var` (src/main.py:121-144). -/
def cmd_def_var (s : RunnerState) (args : List String) : RunnerState :=
  match args with
  | [] => errorRec s "DEF_VAR指令缺少参数。格式: DEF_VAR <$VAR> [Value]"
  | name :: rest =>
      if !(startsWithChar name '$') then errorRec s ("变量名必须以 $ 开头: " ++ name)
      else
        match rest with
        | [] => { s with vars := setStore s.vars name 0 }
        | v :: _ =>
            match parse_value s.vars v with
            | .ok x => { s with vars := setStore s.vars name x }
            | .error e => errorRec s ("变量初始值解析失败: " ++ e)

/-- `TestRunner.cmd_config` (src/main.py:146-155). -/
def cmd_config (s : RunnerState) (args : List String) : RunnerState :=
  match args with
  | k :: v :: _ => { s with config := setConf s.config (toUpperS k) v }
  | _ => errorRec s "CONFIG 指令缺少参数"

/-- Python `" ".join`. -/
def joinSpace : List String → String
  | [] => ""
  | [x] => x
  | x :: xs => x ++ " " ++ joinSpace xs

/-- Python `s.strip(c)` for the quote character. -/
def stripQuotes (s : String) : String :=
  ofChars (((s.data.dropWhile (· == '"')).reverse.dropWhile (· == '"')).reverse)

/-- `TestRunner.cmd_test` (src/main.py:157-177).  The previous open case
    is appended to `test_results` before `args[0]` is read, so a bare
    `TEST` raises `IndexError` with the append already done. -/
def cmd_test (s : RunnerState) (args : List String) : ExecOut :=
  let s0 := { s with test_results := s.test_results ++ s.current_test_data.toList }
  match args with
  | [] => .abort .fatal s0
  | id :: rest =>
      let title := stripQuotes (joinSpace rest)
      .ok { s0 with
            current_test_id := id,
            current_test_title := title,
            current_test_data := some
              { id := id, title := title, result := "PASS",
                expected := [], actual := [], note := "" } }

/-- `TestRunner.cmd_power_on` (src/main.py:179-189). -/
def cmd_power_on (env : Env) (s : RunnerState) (args : List String) : ExecOut :=
  let v := args.getD 0 "12.0"
  let c := args.getD 1 "2.0"
  match run_external_tool env s ("电源上电 " ++ v ++ "V " ++ c ++ "A") with
  | .ret s1 _ => .ok s1
  | .interrupted s1 => .abort .interrupt s1

/-- `TestRunner.cmd_power_off` (src/main.py:191-197). -/
def cmd_power_off (env : Env) (s : RunnerState) (_args : List String) : ExecOut :=
  match run_external_tool env s "电源下电" with
  | .ret s1 _ => .ok s1
  | .interrupted s1 => .abort .interrupt s1

/-- `TestRunner.cmd_power_cycle` (src/main.py:199-215). -/
def cmd_power_cycle (env : Env) (s : RunnerState) (_args : List String) : ExecOut :=
  match cmd_power_off env s [] with
  | .abort k s1 => .abort k s1
  | .ok s1 =>
      match run_external_tool env s1 "电源上电 (恢复输出)" with
      | .ret s2 _ => .ok s2
      | .interrupted s2 => .abort .interrupt s2

/-- `TestRunner.cmd_res_set` (src/main.py:217-226); `args[0]` raises
    `IndexError` when no argument is given. -/
def cmd_res_set (env : Env) (s : RunnerState) (args : List String) : ExecOut :=
  match args with
  | [] => .abort .fatal s
  | v :: _ =>
      match run_external_tool env s ("设置电阻 " ++ v) with
      | .ret s1 _ => .ok s1
      | .interrupted s1 => .abort .interrupt s1

/-- `TestRunner.cmd_res_open` (src/main.py:228-235). -/
def cmd_res_open (env : Env) (s : RunnerState) (_args : List String) : ExecOut :=
  match run_external_tool env s "断开电阻 (OPEN)" with
  | .ret s1 _ => .ok s1
  | .interrupted s1 => .abort .interrupt s1

/-- `TestRunner.cmd_res_close` (src/main.py:237-245). -/
def cmd_res_close (env : Env) (s : RunnerState) (_args : List String) : ExecOut :=
  match run_external_tool env s "闭合电阻 (CLOSE)" with
  | .ret s1 _ => .ok s1
  | .interrupted s1 => .abort .interrupt s1

/-- `TestRunner.cmd_screenshot` (src/main.py:247-272).  The note link is
    appended whether or not the tool invocation succeeded, as in the
    source; directory creation is a no-op here. -/
def cmd_screenshot (env : Env) (s : RunnerState) (args : List String) : ExecOut :=
  let label := args.getD 0 "snap"
  let ts := env.clock s.clockIdx
  let s0 := { s with clockIdx := s.clockIdx + 1 }
  let filename := s.current_test_id ++ "_" ++ label ++ "_" ++ ts ++ ".png"
  match run_external_tool env s0 ("截图 " ++ filename) with
  | .interrupted s1 => .abort .interrupt s1
  | .ret s1 _ =>
      match s1.current_test_data with
      | some c => .ok { s1 with current_test_data := some { c with
                    note := c.note ++ "![" ++ label ++ "](screen_shot/" ++ filename ++ ") " } }
      | none => .ok s1

/-- `TestRunner.cmd_wait` (src/main.py:274-277): `float(args[0])` is
    unguarded, so a missing or non-numeric argument is a fatal uncaught
    exception; the sleep itself is a no-op for the modelled state. -/
def cmd_wait (s : RunnerState) (args : List String) : ExecOut :=
  match args with
  | [] => .abort .fatal s
  | a :: _ =>
      match parseFloatS a with
      | some _ => .ok s
      | none => .abort .fatal s

/-- `TestRunner.cmd_read` (src/main.py:279-309).  Note the source guards
    the write with `if output:`: a `None` (recorded failure) and an empty
    string (exit 0, empty stdout) are both skipped silently at this point. -/
def cmd_read (env : Env) (s : RunnerState) (args : List String) : ExecOut :=
  match args with
  | [a0, a1, a2] =>
      if !(toUpperS a1 = "TO") then
        .ok (errorRec s "READ指令格式错误。正确格式: READ <CH> TO <$VAR>")
      else
        let channel := ofChars (removePair 'c' 'h' (removePair 'C' 'H' a0.data))
        if !(startsWithChar a2 '$') then .ok (errorRec s ("变量名必须以 $ 开头: " ++ a2))
        else if (lookupVar s.vars a2).isNone then
          .ok (errorRec s ("变量 " ++ a2 ++ " 未定义。请先使用 DEF_VAR " ++ a2 ++ " 进行定义。"))
        else
          match run_external_tool env s ("读取通道 " ++ channel) with
          | .interrupted s1 => .abort .interrupt s1
          | .ret s1 none => .ok s1
          | .ret s1 (some output) =>
              if output = "" then .ok s1
              else
                match parseFloatS output with
                | some v => .ok { s1 with vars := setStore s1.vars a2 v }
                | none => .ok (errorRec s1 ("读取失败，返回值非数字: " ++ output))
  | _ => .ok (errorRec s "READ指令格式错误。正确格式: READ <CH> TO <$VAR>")

/-- `TestRunner.cmd_set_var` (src/main.py:311-336). -/
def cmd_set_var (s : RunnerState) (args : List String) : RunnerState :=
  match args with
  | [name, valueStr] =>
      if !(startsWithChar name '$') then errorRec s ("变量名必须以 $ 开头: " ++ name)
      else if (lookupVar s.vars name).isNone then
        errorRec s ("变量 " ++ name ++ " 未定义。请先使用 DEF_VAR " ++ name ++ " 进行定义。")
      else
        match parse_value s.vars valueStr with
        | .ok v => { s with vars := setStore s.vars name v }
        | .error e => errorRec s ("变量设置失败: " ++ e)
  | _ => errorRec s "SET_VAR指令格式错误。正确格式: SET_VAR <$VAR> <Value>"

/-- The `expected`/`actual` row append shared by the two check commands
    (guarded by `if self.current_test_data:` in the source). -/
def recordRow (s : RunnerState) (exp act : String) : RunnerState :=
  match s.current_test_data with
  | some c => { s with current_test_data := some { c with
                  expected := c.expected ++ [exp], actual := c.actual ++ [act] } }
  | none => s

/-- `TestRunner.cmd_check_range` (src/main.py:338-363).  The whole body is
    wrapped in `try/except Exception`, so missing arguments (IndexError)
    and parse failures are all recorded via `error`; the too-few-arguments
    exception text is the CPython IndexError message. -/
def cmd_check_range (s : RunnerState) (args : List String) : RunnerState :=
  match args with
  | a0 :: a1 :: a2 :: _ =>
      match parse_value s.vars a0 with
      | .error e => errorRec s ("CHECK_RANGE 执行异常: " ++ e)
      | .ok real =>
          match parse_value s.vars a1 with
          | .error e => errorRec s ("CHECK_RANGE 执行异常: " ++ e)
          | .ok expect =>
              let tolr : Except String ℚ :=
                if endsWithChar a2 '%' then (parse_value s.vars a2).map (fun t => expect * t)
                else parse_value s.vars a2
              match tolr with
              | .error e => errorRec s ("CHECK_RANGE 执行异常: " ++ e)
              | .ok tol_abs =>
                  let lower := expect - tol_abs
                  let upper := expect + tol_abs
                  let s1 := recordRow s ("[" ++ fmt4 lower ++ ", " ++ fmt4 upper ++ "]") (fmt4 real)
                  if lower ≤ real ∧ real ≤ upper then s1
                  else errorRec s1 ("\x1b[91mFAIL\x1b[0m: " ++ a0 ++ "(" ++ fmt4 real ++
                    ") 超出范围 [" ++ fmt4 lower ++ ", " ++ fmt4 upper ++ "] (期望: " ++
                    a1 ++ " ±" ++ a2 ++ ")")
  | _ => errorRec s "CHECK_RANGE 执行异常: list index out of range"

/-- `TestRunner.cmd_check_diff` (src/main.py:365-384), same try/except
    pattern as `cmd_check_range`. -/
def cmd_check_diff (s : RunnerState) (args : List String) : RunnerState :=
  match args with
  | a0 :: a1 :: a2 :: _ =>
      match parse_value s.vars a0 with
      | .error e => errorRec s ("CHECK_DIFF 执行异常: " ++ e)
      | .ok a =>
          match parse_value s.vars a1 with
          | .error e => errorRec s ("CHECK_DIFF 执行异常: " ++ e)
          | .ok b =>
              match parse_value s.vars a2 with
              | .error e => errorRec s ("CHECK_DIFF 执行异常: " ++ e)
              | .ok m =>
                  let diff := |a - b|
                  let s1 := recordRow s ("Diff <= " ++ fmt4 m) (fmt4 diff)
                  if diff ≤ m then s1
                  else errorRec s1 ("\x1b[91mFAIL\x1b[0m: 差异 " ++ fmt4 diff ++ " > 允许值 " ++ fmt4 m)
  | _ => errorRec s "CHECK_DIFF 执行异常: list index out of range"

/-- `TestRunner.execute_line` (src/main.py:386-408). -/
def execute_line (env : Env) (s : RunnerState) (line : String) : ExecOut :=
  match tokenize line with
  | [] => .ok s
  | tok :: args =>
      let c := toUpperS tok
      if c = "TEST" then cmd_test s args
      else if c = "DEF_VAR" then .ok (cmd_def_var s args)
      else if c = "CONFIG" then .ok (cmd_config s args)
      else if c = "POWER_ON" then cmd_power_on env s args
      else if c = "POWER_OFF" then cmd_power_off env s args
      else if c = "POWER_CYCLE" then cmd_power_cycle env s args
      else if c = "RES_SET" then cmd_res_set env s args
      else if c = "RES_OPEN" then cmd_res_open env s args
      else if c = "RES_CLOSE" then cmd_res_close env s args
      else if c = "SCREENSHOT" then cmd_screenshot env s args
      else if c = "WAIT" then cmd_wait s args
      else if c = "READ" then cmd_read env s args
      else if c = "SET_VAR" then .ok (cmd_set_var s args)
      else if c = "CHECK_RANGE" then .ok (cmd_check_range s args)
      else if c = "CHECK_DIFF" then .ok (cmd_check_diff s args)
      else .ok (errorRec s ("未知指令: " ++ c))

/-- The line loop of `TestRunner.run` (src/main.py:485-489): strip each
    line, skip blanks and `#` comments, dispatch, and stop on the first
    propagating exception. -/
def runLines (env : Env) : RunnerState → List String → ExecOut
  | s, [] => .ok s
  | s, l :: rest =>
      let t := stripS l
      if t = "" ∨ startsWithChar t '#' then runLines env s rest
      else
        match execute_line env s t with
        | .ok s1 => runLines env s1 rest
        | .abort k s1 => .abort k s1

/-- The list `generate_report` (src/main.py:410-417) works from: the last
    open case is appended unless an equal dict is already in the list
    (Python `not in` compares dicts by value). -/
def finalizeResults (s : RunnerState) : List TestCase :=
  match s.current_test_data with
  | some c => if c ∈ s.test_results then s.test_results else s.test_results ++ [c]
  | none => s.test_results

/-- How the process ended.  `cleanupInterrupted` is the corner where a
    second `KeyboardInterrupt` arrives inside the emergency
    `cmd_power_off` of an exception handler: it escapes `run`, so no
    report is written and CPython dies on SIGINT (shell status 130). -/
inductive Outcome where
  | normal
  | interrupted
  | crashed
  | cleanupInterrupted
deriving DecidableEq

structure RunResult where
  outcome : Outcome
  exitCode : ℕ
  reportGenerated : Bool
  finalized : List TestCase
  final : RunnerState
deriving DecidableEq

/-- `TestRunner.run` (src/main.py:465-515) from the point where the script
    lines are in hand: execute all lines; on `KeyboardInterrupt` force
    power-off, generate the report, `sys.exit(130)`; on any other uncaught
    exception do the same with `sys.exit(1)`; on normal completion
    generate the report and exit 0 when `failed_tests` is empty, else 1.
    `generate_report` writes a file only when the finalized list is
    non-empty, and it mutates `test_results` by the final append. -/
def runScript (env : Env) (script : List String) : RunResult :=
  match runLines env initialState script with
  | .ok s =>
      let fr := finalizeResults s
      { outcome := .normal,
        exitCode := if s.failed_tests = [] then 0 else 1,
        reportGenerated := !fr.isEmpty,
        finalized := fr,
        final := { s with test_results := fr } }
  | .abort k s =>
      match cmd_power_off env s [] with
      | .ok s1 =>
          let fr := finalizeResults s1
          match k with
          | .interrupt =>
              { outcome := .interrupted, exitCode := 130, reportGenerated := !fr.isEmpty,
                finalized := fr, final := { s1 with test_results := fr } }
          | .fatal =>
              { outcome := .crashed, exitCode := 1, reportGenerated := !fr.isEmpty,
                finalized := fr, final := { s1 with test_results := fr } }
      | .abort _ s1 =>
          { outcome := .cleanupInterrupted, exitCode := 130, reportGenerated := false,
            finalized := [], final := s1 }

/-! ### Invariants shared by the non-`TEST` handlers

`Frame s s'` says a step from `s` to `s'` left the finalized list alone,
kept the runner-level id/title, and — when a case was open — kept a case
open with the same id and title whose FAIL result (if any) was not reset. -/

def caseShape (c c' : TestCase) : Prop :=
  c'.id = c.id ∧ c'.title = c.title ∧ (c.result = "FAIL" → c'.result = "FAIL")

def Frame (s s' : RunnerState) : Prop :=
  s'.test_results = s.test_results ∧
  s'.current_test_id = s.current_test_id ∧
  s'.current_test_title = s.current_test_title ∧
  ((s.current_test_data = none ∧ s'.current_test_data = none) ∨
   (∃ c c', s.current_test_data = some c ∧ s'.current_test_data = some c' ∧ caseShape c c'))

lemma caseShape_refl (c : TestCase) : caseShape c c := ⟨rfl, rfl, fun h => h⟩

lemma caseShape_trans {a b c : TestCase} (h1 : caseShape a b) (h2 : caseShape b c) :
    caseShape a c :=
  ⟨h2.1.trans h1.1, h2.2.1.trans h1.2.1, fun h => h2.2.2 (h1.2.2 h)⟩

lemma frame_refl (s : RunnerState) : Frame s s := by
  refine ⟨rfl, rfl, rfl, ?_⟩
  cases h : s.current_test_data with
  | none => exact Or.inl ⟨rfl, rfl⟩
  | some c => exact Or.inr ⟨c, c, rfl, rfl, caseShape_refl c⟩

lemma frame_trans {s1 s2 s3 : RunnerState} (h : Frame s1 s2) (h' : Frame s2 s3) :
    Frame s1 s3 := by
  obtain ⟨a1, a2, a3, a4⟩ := h
  obtain ⟨b1, b2, b3, b4⟩ := h'
  refine ⟨b1.trans a1, b2.trans a2, b3.trans a3, ?_⟩
  rcases a4 with ⟨ha, hb⟩ | ⟨c, c', hc, hc', hs⟩
  · rcases b4 with ⟨hd, he⟩ | ⟨d, d', hd, hd', ht⟩
    · exact Or.inl ⟨ha, he⟩
    · rw [hb] at hd; cases hd
  · rcases b4 with ⟨hd, he⟩ | ⟨d, d', hd, hd', ht⟩
    · rw [hc'] at hd; cases hd
    · rw [hc'] at hd
      cases hd
      exact Or.inr ⟨c, d', hc, hd', caseShape_trans hs ht⟩

/-- Updates not touching the tracked fields give a frame. -/
lemma frame_same {s s' : RunnerState}
    (h1 : s'.test_results = s.test_results)
    (h2 : s'.current_test_id = s.current_test_id)
    (h3 : s'.current_test_title = s.current_test_title)
    (h4 : s'.current_test_data = s.current_test_data) : Frame s s' := by
  refine ⟨h1, h2, h3, ?_⟩
  cases h : s.current_test_data with
  | none => exact Or.inl ⟨rfl, h4.trans h⟩
  | some c => exact Or.inr ⟨c, c, rfl, h4.trans h, caseShape_refl c⟩

lemma frame_errorRec (s : RunnerState) (msg : String) : Frame s (errorRec s msg) := by
  cases h : s.current_test_data with
  | none =>
      have he : errorRec s msg = { s with
          failed_tests := if s.current_test_id ∈ s.failed_tests then s.failed_tests
            else s.failed_tests ++ [s.current_test_id ++ " (" ++ s.current_test_title ++ ")"] } := by
        simp [errorRec, h]
      rw [he]
      exact ⟨rfl, rfl, rfl, Or.inl ⟨h, h⟩⟩
  | some c =>
      have he : errorRec s msg = { s with
          failed_tests := if s.current_test_id ∈ s.failed_tests then s.failed_tests
            else s.failed_tests ++ [s.current_test_id ++ " (" ++ s.current_test_title ++ ")"],
          current_test_data := some { c with
            result := "FAIL",
            note := if containsSubstr c.note msg then c.note else c.note ++ msg ++ "; " } } := by
        simp [errorRec, h]
      rw [he]
      exact ⟨rfl, rfl, rfl, Or.inr ⟨c, _, h, rfl, rfl, rfl, fun _ => rfl⟩⟩

lemma frame_recordRow (s : RunnerState) (e a : String) : Frame s (recordRow s e a) := by
  unfold recordRow
  cases h : s.current_test_data with
  | none => exact frame_refl s
  | some c =>
      refine ⟨rfl, rfl, rfl, Or.inr ⟨c, _, h, rfl, rfl, rfl, ?_⟩⟩
      intro hr; exact hr

lemma frame_tool_ret {env : Env} {s : RunnerState} {desc : String} {s1 : RunnerState}
    {o : Option String} (h : run_external_tool env s desc = .ret s1 o) : Frame s s1 := by
  unfold run_external_tool at h
  cases ho : env.tool s.toolIdx <;> rw [ho] at h <;> simp at h
  · exact h.1 ▸ frame_same rfl rfl rfl rfl
  · exact h.1 ▸ frame_trans (frame_same rfl rfl rfl rfl) (frame_errorRec _ _)
  · exact h.1 ▸ frame_trans (frame_same rfl rfl rfl rfl) (frame_errorRec _ _)

lemma frame_tool_int {env : Env} {s : RunnerState} {desc : String} {s1 : RunnerState}
    (h : run_external_tool env s desc = .interrupted s1) : Frame s s1 := by
  unfold run_external_tool at h
  cases ho : env.tool s.toolIdx <;> rw [ho] at h <;> simp at h
  exact h ▸ frame_same rfl rfl rfl rfl

/-- `Frame` for a step that may also propagate an exception: the state
    carried out (normally or by the exception) is framed. -/
def frameOut (s : RunnerState) : ExecOut → Prop
  | .ok s1 => Frame s s1
  | .abort _ s1 => Frame s s1

lemma frame_cmd_def_var (s : RunnerState) (args : List String) :
    Frame s (cmd_def_var s args) := by
  unfold cmd_def_var
  split
  · exact frame_errorRec s _
  · split
    · exact frame_errorRec s _
    · split
      · exact frame_same rfl rfl rfl rfl
      · split
        · exact frame_same rfl rfl rfl rfl
        · exact frame_errorRec s _

lemma frame_cmd_config (s : RunnerState) (args : List String) :
    Frame s (cmd_config s args) := by
  unfold cmd_config
  split
  · exact frame_same rfl rfl rfl rfl
  · exact frame_errorRec s _

lemma frame_cmd_set_var (s : RunnerState) (args : List String) :
    Frame s (cmd_set_var s args) := by
  unfold cmd_set_var
  split
  · split
    · exact frame_errorRec s _
    · split
      · exact frame_errorRec s _
      · split
        · exact frame_same rfl rfl rfl rfl
        · exact frame_errorRec s _
  · exact frame_errorRec s _

lemma frame_cmd_check_range (s : RunnerState) (args : List String) :
    Frame s (cmd_check_range s args) := by
  unfold cmd_check_range
  dsimp only
  split
  · split
    · exact frame_errorRec s _
    · split
      · exact frame_errorRec s _
      · split
        · exact frame_errorRec s _
        · split
          · exact frame_recordRow s _ _
          · exact frame_trans (frame_recordRow s _ _) (frame_errorRec _ _)
  · exact frame_errorRec s _

lemma frame_cmd_check_diff (s : RunnerState) (args : List String) :
    Frame s (cmd_check_diff s args) := by
  unfold cmd_check_diff
  dsimp only
  split
  · split
    · exact frame_errorRec s _
    · split
      · exact frame_errorRec s _
      · split
        · exact frame_errorRec s _
        · split
          · exact frame_recordRow s _ _
          · exact frame_trans (frame_recordRow s _ _) (frame_errorRec _ _)
  · exact frame_errorRec s _

lemma frameOut_cmd_power_on (env : Env) (s : RunnerState) (args : List String) :
    frameOut s (cmd_power_on env s args) := by
  unfold cmd_power_on
  dsimp only
  split <;> rename_i h
  · exact frame_tool_ret h
  · exact frame_tool_int h

lemma frameOut_cmd_power_off (env : Env) (s : RunnerState) (args : List String) :
    frameOut s (cmd_power_off env s args) := by
  unfold cmd_power_off
  split <;> rename_i h
  · exact frame_tool_ret h
  · exact frame_tool_int h

lemma frameOut_cmd_power_cycle (env : Env) (s : RunnerState) (args : List String) :
    frameOut s (cmd_power_cycle env s args) := by
  have hoff := frameOut_cmd_power_off env s []
  unfold cmd_power_cycle
  split <;> rename_i h1
  · rw [h1] at hoff
    exact hoff
  · rw [h1] at hoff
    have hf1 : Frame s _ := hoff
    split <;> rename_i h2
    · exact frame_trans hf1 (frame_tool_ret h2)
    · exact frame_trans hf1 (frame_tool_int h2)

lemma frameOut_cmd_res_set (env : Env) (s : RunnerState) (args : List String) :
    frameOut s (cmd_res_set env s args) := by
  unfold cmd_res_set
  split
  · exact frame_refl s
  · split <;> rename_i h
    · exact frame_tool_ret h
    · exact frame_tool_int h

lemma frameOut_cmd_res_open (env : Env) (s : RunnerState) (args : List String) :
    frameOut s (cmd_res_open env s args) := by
  unfold cmd_res_open
  split <;> rename_i h
  · exact frame_tool_ret h
  · exact frame_tool_int h

lemma frameOut_cmd_res_close (env : Env) (s : RunnerState) (args : List String) :
    frameOut s (cmd_res_close env s args) := by
  unfold cmd_res_close
  split <;> rename_i h
  · exact frame_tool_ret h
  · exact frame_tool_int h

lemma frameOut_cmd_screenshot (env : Env) (s : RunnerState) (args : List String) :
    frameOut s (cmd_screenshot env s args) := by
  unfold cmd_screenshot
  dsimp only
  have hs0 : Frame s { s with clockIdx := s.clockIdx + 1 } := frame_same rfl rfl rfl rfl
  split <;> rename_i h
  · exact frame_trans hs0 (frame_tool_int h)
  · rename_i s1 o
    have hf1 : Frame s s1 := frame_trans hs0 (frame_tool_ret h)
    split <;> rename_i hc
    · rename_i c
      refine frame_trans hf1 ⟨rfl, rfl, rfl, Or.inr ⟨c, _, hc, rfl, rfl, rfl, fun hr => hr⟩⟩
    · exact hf1

lemma frameOut_cmd_wait (s : RunnerState) (args : List String) :
    frameOut s (cmd_wait s args) := by
  unfold cmd_wait
  split
  · exact frame_refl s
  · split
    · exact frame_refl s
    · exact frame_refl s

lemma frameOut_cmd_read (env : Env) (s : RunnerState) (args : List String) :
    frameOut s (cmd_read env s args) := by
  unfold cmd_read
  dsimp only
  split
  · split
    · exact frame_errorRec s _
    · split
      · exact frame_errorRec s _
      · split
        · exact frame_errorRec s _
        · split <;> rename_i h
          · exact frame_tool_int h
          · exact frame_tool_ret h
          · rename_i s1 output
            have hf1 : Frame s s1 := frame_tool_ret h
            split
            · exact hf1
            · split
              · exact frame_trans hf1 (frame_same rfl rfl rfl rfl)
              · exact frame_trans hf1 (frame_errorRec _ _)
  · exact frame_errorRec s _

/-- A line whose first token does not dispatch to `cmd_test` frames the
    state (all other handlers leave the finalized list and the open
    case's identity alone and never reset FAIL). -/
lemma frameOut_execute_line (env : Env) (s : RunnerState) (line : String)
    (h : ∀ tok args, tokenize line = tok :: args → toUpperS tok ≠ "TEST") :
    frameOut s (execute_line env s line) := by
  unfold execute_line
  dsimp only
  split
  · exact frame_refl s
  · rename_i tok args htok
    rw [if_neg (h tok args htok)]
    by_cases h1 : toUpperS tok = "DEF_VAR"
    · rw [if_pos h1]
      exact frame_cmd_def_var s args
    · rw [if_neg h1]
      by_cases h2 : toUpperS tok = "CONFIG"
      · rw [if_pos h2]
        exact frame_cmd_config s args
      · rw [if_neg h2]
        by_cases h3 : toUpperS tok = "POWER_ON"
        · rw [if_pos h3]
          exact frameOut_cmd_power_on env s args
        · rw [if_neg h3]
          by_cases h4 : toUpperS tok = "POWER_OFF"
          · rw [if_pos h4]
            exact frameOut_cmd_power_off env s args
          · rw [if_neg h4]
            by_cases h5 : toUpperS tok = "POWER_CYCLE"
            · rw [if_pos h5]
              exact frameOut_cmd_power_cycle env s args
            · rw [if_neg h5]
              by_cases h6 : toUpperS tok = "RES_SET"
              · rw [if_pos h6]
                exact frameOut_cmd_res_set env s args
              · rw [if_neg h6]
                by_cases h7 : toUpperS tok = "RES_OPEN"
                · rw [if_pos h7]
                  exact frameOut_cmd_res_open env s args
                · rw [if_neg h7]
                  by_cases h8 : toUpperS tok = "RES_CLOSE"
                  · rw [if_pos h8]
                    exact frameOut_cmd_res_close env s args
                  · rw [if_neg h8]
                    by_cases h9 : toUpperS tok = "SCREENSHOT"
                    · rw [if_pos h9]
                      exact frameOut_cmd_screenshot env s args
                    · rw [if_neg h9]
                      by_cases h10 : toUpperS tok = "WAIT"
                      · rw [if_pos h10]
                        exact frameOut_cmd_wait s args
                      · rw [if_neg h10]
                        by_cases h11 : toUpperS tok = "READ"
                        · rw [if_pos h11]
                          exact frameOut_cmd_read env s args
                        · rw [if_neg h11]
                          by_cases h12 : toUpperS tok = "SET_VAR"
                          · rw [if_pos h12]
                            exact frame_cmd_set_var s args
                          · rw [if_neg h12]
                            by_cases h13 : toUpperS tok = "CHECK_RANGE"
                            · rw [if_pos h13]
                              exact frame_cmd_check_range s args
                            · rw [if_neg h13]
                              by_cases h14 : toUpperS tok = "CHECK_DIFF"
                              · rw [if_pos h14]
                                exact frame_cmd_check_diff s args
                              · rw [if_neg h14]
                                exact frame_errorRec s _

/-- `(id, title)` of a case, the data a `TEST` command pins down. -/
def idTitle (c : TestCase) : String × String := (c.id, c.title)

/-- The id/title sequence of all cases seen so far: the finalized ones in
    order, then the open one (if any). -/
def trace (s : RunnerState) : List (String × String) :=
  s.test_results.map idTitle ++ s.current_test_data.toList.map idTitle

lemma trace_of_frame {s s' : RunnerState} (h : Frame s s') : trace s' = trace s := by
  obtain ⟨h1, _, _, h4⟩ := h
  unfold trace
  rw [h1]
  rcases h4 with ⟨ha, hb⟩ | ⟨c, c', hc, hc', hs⟩
  · rw [ha, hb]
  · rw [hc, hc']
    simp [idTitle, hs.1, hs.2.1]

/-- The `(id, title)` pair a line contributes when it is a (well-formed)
    `TEST` command, as `cmd_test` computes them. -/
def testLineEntry (line : String) : List (String × String) :=
  match tokenize line with
  | tok :: i :: rest =>
      if toUpperS tok = "TEST" then [(i, stripQuotes (joinSpace rest))] else []
  | _ => []

lemma testLineEntry_eq_nil {line : String}
    (h : ∀ tok args, tokenize line = tok :: args → toUpperS tok ≠ "TEST") :
    testLineEntry line = [] := by
  unfold testLineEntry
  split
  · rename_i tok i rest htok
    rw [if_neg (h tok (i :: rest) htok)]
  · rfl

lemma execute_line_trace (env : Env) (s : RunnerState) (line : String) (s1 : RunnerState)
    (h : execute_line env s line = .ok s1) :
    trace s1 = trace s ++ testLineEntry line := by
  by_cases hT : ∀ tok args, tokenize line = tok :: args → toUpperS tok ≠ "TEST"
  · have hf := frameOut_execute_line env s line hT
    rw [h] at hf
    rw [trace_of_frame hf, testLineEntry_eq_nil hT]
    simp
  · push_neg at hT
    obtain ⟨tok, args, htok, htest⟩ := hT
    unfold execute_line at h
    rw [htok] at h
    dsimp only at h
    rw [if_pos htest] at h
    cases args with
    | nil =>
        unfold cmd_test at h
        exact (ExecOut.noConfusion h)
    | cons i rest =>
        unfold cmd_test at h
        dsimp only at h
        injection h with h
        subst h
        unfold testLineEntry
        rw [htok]
        dsimp only
        rw [if_pos htest]
        unfold trace
        simp [idTitle]

def testsOf : List String → List (String × String)
  | [] => []
  | l :: rest =>
      (if stripS l = "" ∨ startsWithChar (stripS l) '#' then []
       else testLineEntry (stripS l)) ++ testsOf rest

/-- Core induction: executing a script to its end extends the id/title
    trace by exactly the `TEST` commands of the script, in order. -/
lemma runLines_trace (env : Env) : ∀ (script : List String) (s s' : RunnerState),
    runLines env s script = .ok s' → trace s' = trace s ++ testsOf script := by
  intro script
  induction script with
  | nil =>
      intro s s' h
      unfold runLines at h
      injection h with h
      subst h
      simp [testsOf]
  | cons l rest ih =>
      intro s s' h
      unfold runLines at h
      dsimp only at h
      by_cases hskip : stripS l = "" ∨ startsWithChar (stripS l) '#'
      · rw [if_pos hskip] at h
        rw [ih s s' h]
        simp [testsOf, hskip]
      · rw [if_neg hskip] at h
        cases hex : execute_line env s (stripS l) with
        | ok s1 =>
            rw [hex] at h
            rw [ih s1 s' h, execute_line_trace env s (stripS l) s1 hex]
            simp [testsOf, hskip, List.append_assoc]
        | abort k s1 =>
            rw [hex] at h
            exact (ExecOut.noConfusion h)

lemma ofChars_ne_empty {l : List Char} (h : l ≠ []) : ofChars l ≠ "" := by
  intro he
  apply h
  have hd : (ofChars l).data = ("" : String).data := by rw [he]
  simpa [ofChars] using hd

lemma mem_tokenizeAux_ne : ∀ (l acc : List Char) (t : String),
    t ∈ tokenizeAux acc l → t ≠ "" := by
  intro l
  induction l with
  | nil =>
      intro acc t ht
      unfold tokenizeAux at ht
      by_cases ha : acc.isEmpty
      · rw [if_pos ha] at ht
        cases ht
      · rw [if_neg ha] at ht
        rcases List.mem_singleton.mp ht with h1
        subst h1
        apply ofChars_ne_empty
        simp only [List.isEmpty_iff] at ha
        simpa using ha
  | cons c cs ih =>
      intro acc t ht
      unfold tokenizeAux at ht
      by_cases hw : c.isWhitespace
      · rw [if_pos hw] at ht
        by_cases ha : acc.isEmpty
        · rw [if_pos ha] at ht
          exact ih [] t ht
        · rw [if_neg ha] at ht
          rcases List.mem_cons.mp ht with h1 | h2
          · subst h1
            apply ofChars_ne_empty
            simp only [List.isEmpty_iff] at ha
            simpa using ha
          · exact ih [] t h2
      · rw [if_neg hw] at ht
        exact ih (c :: acc) t ht

lemma mem_tokenize_ne {s t : String} (h : t ∈ tokenize s) : t ≠ "" :=
  mem_tokenizeAux_ne s.data [] t h

lemma testsOf_fst_ne : ∀ (script : List String), ∀ p ∈ testsOf script, p.1 ≠ "" := by
  intro script
  induction script with
  | nil =>
      intro p hp
      cases hp
  | cons l rest ih =>
      intro p hp
      unfold testsOf at hp
      rcases List.mem_append.mp hp with h1 | h2
      · by_cases hskip : stripS l = "" ∨ startsWithChar (stripS l) '#'
        · rw [if_pos hskip] at h1
          cases h1
        · rw [if_neg hskip] at h1
          unfold testLineEntry at h1
          split at h1
          · rename_i tok i rest2 htok
            split at h1
            · rcases List.mem_singleton.mp h1 with h3
              subst h3
              have hi : i ∈ tokenize (stripS l) := by
                rw [htok]
                simp
              exact mem_tokenize_ne hi
            · cases h1
          · cases h1
      · exact ih p h2

lemma finalize_trace (s : RunnerState) :
    (finalizeResults s).map idTitle = trace s ∨
    ((finalizeResults s).map idTitle = (trace s).dropLast ∧
      ∃ c, s.current_test_data = some c ∧ c ∈ s.test_results) := by
  unfold finalizeResults trace
  cases h : s.current_test_data with
  | none =>
      left
      simp
  | some c =>
      dsimp only
      by_cases hc : c ∈ s.test_results
      · right
        rw [if_pos hc]
        refine ⟨?_, c, rfl, hc⟩
        simp [List.dropLast_concat]
      · left
        rw [if_neg hc]
        simp

/-! ### Concrete environments and states for witnesses -/

/-- Every child invocation exits 0 with empty stdout. -/
def env0 : Env := { tool := fun _ => .success "", clock := fun _ => "000000" }

/-- Every child invocation fails (nonzero exit, stderr `boom`). -/
def env1 : Env := { tool := fun _ => .failure "boom", clock := fun _ => "000000" }

/-- A state with one open, still-passing case. -/
def sampleState : RunnerState :=
  { initialState with current_test_data := some ⟨"T1", "t", "PASS", [], [], ""⟩,
                      current_test_id := "T1", current_test_title := "t" }

deriving instance DecidableEq for Except

lemma errorRec_vars (s : RunnerState) (msg : String) : (errorRec s msg).vars = s.vars := by
  cases h : s.current_test_data <;> simp [errorRec, h]

lemma errorRec_fail {s : RunnerState} {c : TestCase} (h : s.current_test_data = some c)
    (msg : String) :
    (errorRec s msg).current_test_data = some { c with
      result := "FAIL",
      note := if containsSubstr c.note msg then c.note else c.note ++ msg ++ "; " } := by
  simp [errorRec, h]

lemma errorRec_none {s : RunnerState} (h : s.current_test_data = none) (msg : String) :
    errorRec s msg = { s with
      failed_tests := if s.current_test_id ∈ s.failed_tests then s.failed_tests
        else s.failed_tests ++ [s.current_test_id ++ " (" ++ s.current_test_title ++ ")"] } := by
  simp [errorRec, h]

/-- C4.  For every value token, `parse_value` resolves by the fixed
    precedence: variable reference, then `%` suffix, then the
    case-insensitive `mA` marker, then the `a`/`A` marker, then plain
    float; a `%` token is the number divided by 100, an `mA` token the
    number divided by 1000; in particular `parse("2560mA") = 2.56` and
    `parse("5%") = 0.05`. -/
theorem C4_parse_value_precedence :
    (∀ vars tok x, startsWithChar (stripS tok) '$' = true →
       lookupVar vars (stripS tok) = some x →
       parse_value vars tok = .ok x) ∧
    (∀ vars tok x, ¬ startsWithChar (stripS tok) '$' = true →
       endsWithChar (stripS tok) '%' = true →
       parseFloatS (ofChars (stripS tok).data.dropLast) = some x →
       parse_value vars tok = .ok (x / 100)) ∧
    (∀ vars tok x, ¬ startsWithChar (stripS tok) '$' = true →
       ¬ endsWithChar (stripS tok) '%' = true →
       containsSubstr (toLowerS (stripS tok)) "ma" = true →
       parseFloatS (ofChars (removePair 'm' 'a' (toLowerS (stripS tok)).data)) = some x →
       parse_value vars tok = .ok (x / 1000)) ∧
    (∀ vars tok x, ¬ startsWithChar (stripS tok) '$' = true →
       ¬ endsWithChar (stripS tok) '%' = true →
       ¬ containsSubstr (toLowerS (stripS tok)) "ma" = true →
       containsSubstr (toLowerS (stripS tok)) "a" = true →
       parseFloatS (ofChars (removeChar 'a' (toLowerS (stripS tok)).data)) = some x →
       parse_value vars tok = .ok x) ∧
    (∀ vars tok x, ¬ startsWithChar (stripS tok) '$' = true →
       ¬ endsWithChar (stripS tok) '%' = true →
       ¬ containsSubstr (toLowerS (stripS tok)) "ma" = true →
       ¬ containsSubstr (toLowerS (stripS tok)) "a" = true →
       parseFloatS (stripS tok) = some x →
       parse_value vars tok = .ok x) ∧
    parse_value [] "2560mA" = .ok (2.56 : ℚ) ∧
    parse_value [] "5%" = .ok (0.05 : ℚ) := by
  refine ⟨?_, ?_, ?_, ?_, ?_, ?_, ?_⟩
  · intro vars tok x h1 h2
    unfold parse_value
    dsimp only
    rw [if_pos h1, h2]
  · intro vars tok x h1 h2 h3
    unfold parse_value
    dsimp only
    rw [if_neg h1, if_pos h2, h3]
  · intro vars tok x h1 h2 h3 h4
    unfold parse_value
    dsimp only
    rw [if_neg h1, if_neg h2, if_pos h3, h4]
  · intro vars tok x h1 h2 h3 h4 h5
    unfold parse_value
    dsimp only
    rw [if_neg h1, if_neg h2, if_neg h3, if_pos h4, h5]
  · intro vars tok x h1 h2 h3 h4 h5
    unfold parse_value
    dsimp only
    rw [if_neg h1, if_neg h2, if_neg h3, if_neg h4, h5]
  · have h : parse_value [] "2560mA" = Except.ok (((2560 : ℕ) : ℚ) / 1000) := rfl
    rw [h]
    norm_num
  · have h : parse_value [] "5%" = Except.ok (((5 : ℕ) : ℚ) / 100) := rfl
    rw [h]
    norm_num

theorem C4_witness :
    startsWithChar (stripS "$v") '$' = true ∧
    lookupVar [("$v", (3 : ℚ))] (stripS "$v") = some 3 ∧
    parse_value [("$v", (3 : ℚ))] "$v" = .ok 3 :=
  ⟨rfl, rfl, C4_parse_value_precedence.1 [("$v", 3)] "$v" 3 rfl rfl⟩

/-- C7.  Referencing a variable never defined by `DEF_VAR` always gives an
    undefined-variable error: `parse_value` rejects any undefined `$`
    reference (so every command resolving value tokens records an error),
    and `SET_VAR $x 1` before `DEF_VAR $x` records the error, leaves the
    store unchanged, and creates no binding. -/
theorem C7_undefined_variable (s : RunnerState) (name v : String)
    (hpre : startsWithChar name '$' = true)
    (hundef : lookupVar s.vars name = none) :
    cmd_set_var s [name, v]
      = errorRec s ("变量 " ++ name ++ " 未定义。请先使用 DEF_VAR " ++ name ++ " 进行定义。") ∧
    (cmd_set_var s [name, v]).vars = s.vars ∧
    lookupVar (cmd_set_var s [name, v]).vars name = none ∧
    (∀ c, s.current_test_data = some c →
       ∃ c', (cmd_set_var s [name, v]).current_test_data = some c' ∧ c'.result = "FAIL") ∧
    (∀ vars tok, startsWithChar (stripS tok) '$' = true →
       lookupVar vars (stripS tok) = none →
       parse_value vars tok
         = .error ("使用了未定义的变量: " ++ stripS tok ++ " (请先使用 DEF_VAR 定义)")) := by
  have hmain : cmd_set_var s [name, v]
      = errorRec s ("变量 " ++ name ++ " 未定义。请先使用 DEF_VAR " ++ name ++ " 进行定义。") := by
    simp [cmd_set_var, hpre, hundef]
  refine ⟨hmain, ?_, ?_, ?_, ?_⟩
  · rw [hmain]
    exact errorRec_vars s _
  · rw [hmain, errorRec_vars s _]
    exact hundef
  · intro c hc
    rw [hmain]
    exact ⟨_, errorRec_fail hc _, rfl⟩
  · intro vars tok h1 h2
    unfold parse_value
    dsimp only
    rw [if_pos h1, h2]

theorem C7_witness :
    startsWithChar "$x" '$' = true ∧
    lookupVar initialState.vars "$x" = none ∧
    (cmd_set_var initialState ["$x", "1"]).vars = initialState.vars ∧
    lookupVar (cmd_set_var initialState ["$x", "1"]).vars "$x" = none :=
  ⟨rfl, rfl, (C7_undefined_variable initialState "$x" "1" rfl rfl).2.1,
    (C7_undefined_variable initialState "$x" "1" rfl rfl).2.2.1⟩

lemma execute_line_dispatch_check_diff (env : Env) (s : RunnerState) (line tok : String)
    (args : List String) (htok : tokenize line = tok :: args)
    (hU : toUpperS tok = "CHECK_DIFF") :
    execute_line env s line = .ok (cmd_check_diff s args) := by
  unfold execute_line
  rw [htok]
  dsimp only
  rw [hU]
  rw [if_neg (by decide), if_neg (by decide), if_neg (by decide), if_neg (by decide),
      if_neg (by decide), if_neg (by decide), if_neg (by decide), if_neg (by decide),
      if_neg (by decide), if_neg (by decide), if_neg (by decide), if_neg (by decide),
      if_neg (by decide), if_neg (by decide), if_pos rfl]

/-- C5.  With all three tokens parsing and a `%` tolerance, `CHECK_RANGE`
    takes its pass branch exactly when
    `expected*(1-tol) ≤ real ≤ expected*(1+tol)`, and in both branches the
    computed range and the actual value are appended to the open case's
    rows; `CHECK_RANGE 2580 2560 5%` passes and `CHECK_RANGE 2800 2560 5%`
    fails. -/
theorem C5_check_range_semantics (s : RunnerState) (a0 a1 a2 : String) (rest : List String)
    (real expect tol : ℚ) (c : TestCase)
    (h0 : parse_value s.vars a0 = .ok real)
    (h1 : parse_value s.vars a1 = .ok expect)
    (h2 : parse_value s.vars a2 = .ok tol)
    (hpct : endsWithChar a2 '%' = true)
    (hopen : s.current_test_data = some c) :
    (expect * (1 - tol) ≤ real ∧ real ≤ expect * (1 + tol) →
      cmd_check_range s (a0 :: a1 :: a2 :: rest)
        = recordRow s ("[" ++ fmt4 (expect - expect * tol) ++ ", " ++ fmt4 (expect + expect * tol) ++ "]")
            (fmt4 real)) ∧
    (¬ (expect * (1 - tol) ≤ real ∧ real ≤ expect * (1 + tol)) →
      cmd_check_range s (a0 :: a1 :: a2 :: rest)
        = errorRec (recordRow s ("[" ++ fmt4 (expect - expect * tol) ++ ", " ++ fmt4 (expect + expect * tol) ++ "]")
            (fmt4 real))
            ("\x1b[91mFAIL\x1b[0m: " ++ a0 ++ "(" ++ fmt4 real ++ ") 超出范围 [" ++
              fmt4 (expect - expect * tol) ++ ", " ++ fmt4 (expect + expect * tol) ++
              "] (期望: " ++ a1 ++ " ±" ++ a2 ++ ")")) ∧
    (∃ c', (cmd_check_range s (a0 :: a1 :: a2 :: rest)).current_test_data = some c' ∧
       c'.expected = c.expected ++
         ["[" ++ fmt4 (expect - expect * tol) ++ ", " ++ fmt4 (expect + expect * tol) ++ "]"] ∧
       c'.actual = c.actual ++ [fmt4 real]) ∧
    (cmd_check_range sampleState ["2580", "2560", "5%"]).current_test_data.map TestCase.result
       = some "PASS" ∧
    (cmd_check_range sampleState ["2800", "2560", "5%"]).current_test_data.map TestCase.result
       = some "FAIL" := by
  have hred : cmd_check_range s (a0 :: a1 :: a2 :: rest)
      = if expect - expect * tol ≤ real ∧ real ≤ expect + expect * tol
        then recordRow s ("[" ++ fmt4 (expect - expect * tol) ++ ", " ++ fmt4 (expect + expect * tol) ++ "]")
               (fmt4 real)
        else errorRec (recordRow s ("[" ++ fmt4 (expect - expect * tol) ++ ", " ++ fmt4 (expect + expect * tol) ++ "]")
               (fmt4 real))
               ("\x1b[91mFAIL\x1b[0m: " ++ a0 ++ "(" ++ fmt4 real ++ ") 超出范围 [" ++
                 fmt4 (expect - expect * tol) ++ ", " ++ fmt4 (expect + expect * tol) ++
                 "] (期望: " ++ a1 ++ " ±" ++ a2 ++ ")") := by
    unfold cmd_check_range
    simp only [h0, h1, h2, hpct, if_true, Except.map]
  have hiff : ∀ r : ℚ, (expect * (1 - tol) ≤ r ∧ r ≤ expect * (1 + tol))
      ↔ (expect - expect * tol ≤ r ∧ r ≤ expect + expect * tol) := by
    intro r
    constructor
    · rintro ⟨ha, hb⟩
      constructor <;> nlinarith
    · rintro ⟨ha, hb⟩
      constructor <;> nlinarith
  refine ⟨?_, ?_, ?_, ?_, ?_⟩
  · intro hp
    rw [hred, if_pos ((hiff real).mp hp)]
  · intro hp
    rw [hred, if_neg (fun hq => hp ((hiff real).mpr hq))]
  · rw [hred]
    by_cases hq : expect - expect * tol ≤ real ∧ real ≤ expect + expect * tol
    · rw [if_pos hq]
      unfold recordRow
      rw [hopen]
      exact ⟨_, rfl, rfl, rfl⟩
    · rw [if_neg hq]
      have hrec : (recordRow s ("[" ++ fmt4 (expect - expect * tol) ++ ", " ++ fmt4 (expect + expect * tol) ++ "]")
          (fmt4 real)).current_test_data
          = some { c with
              expected := c.expected ++ ["[" ++ fmt4 (expect - expect * tol) ++ ", " ++ fmt4 (expect + expect * tol) ++ "]"],
              actual := c.actual ++ [fmt4 real] } := by
        unfold recordRow
        rw [hopen]
      exact ⟨_, errorRec_fail hrec _, rfl, rfl⟩
  · have e0 : parse_value sampleState.vars "2580" = .ok (((2580 : ℕ) : ℚ)) := rfl
    have e1 : parse_value sampleState.vars "2560" = .ok (((2560 : ℕ) : ℚ)) := rfl
    have e2 : parse_value sampleState.vars "5%" = .ok (((5 : ℕ) : ℚ) / 100) := rfl
    have hc : cmd_check_range sampleState ["2580", "2560", "5%"]
        = if ((2560 : ℕ) : ℚ) - ((2560 : ℕ) : ℚ) * (((5 : ℕ) : ℚ) / 100) ≤ ((2580 : ℕ) : ℚ) ∧
             ((2580 : ℕ) : ℚ) ≤ ((2560 : ℕ) : ℚ) + ((2560 : ℕ) : ℚ) * (((5 : ℕ) : ℚ) / 100)
          then recordRow sampleState
                 ("[" ++ fmt4 (((2560 : ℕ) : ℚ) - ((2560 : ℕ) : ℚ) * (((5 : ℕ) : ℚ) / 100)) ++ ", " ++
                   fmt4 (((2560 : ℕ) : ℚ) + ((2560 : ℕ) : ℚ) * (((5 : ℕ) : ℚ) / 100)) ++ "]")
                 (fmt4 ((2580 : ℕ) : ℚ))
          else errorRec (recordRow sampleState
                 ("[" ++ fmt4 (((2560 : ℕ) : ℚ) - ((2560 : ℕ) : ℚ) * (((5 : ℕ) : ℚ) / 100)) ++ ", " ++
                   fmt4 (((2560 : ℕ) : ℚ) + ((2560 : ℕ) : ℚ) * (((5 : ℕ) : ℚ) / 100)) ++ "]")
                 (fmt4 ((2580 : ℕ) : ℚ)))
                 ("\x1b[91mFAIL\x1b[0m: " ++ "2580" ++ "(" ++ fmt4 ((2580 : ℕ) : ℚ) ++ ") 超出范围 [" ++
                   fmt4 (((2560 : ℕ) : ℚ) - ((2560 : ℕ) : ℚ) * (((5 : ℕ) : ℚ) / 100)) ++ ", " ++
                   fmt4 (((2560 : ℕ) : ℚ) + ((2560 : ℕ) : ℚ) * (((5 : ℕ) : ℚ) / 100)) ++
                   "] (期望: " ++ "2560" ++ " ±" ++ "5%" ++ ")") := by
      unfold cmd_check_range
      simp only [e0, e1, e2, Except.map]
      rfl
    rw [hc, if_pos (by constructor <;> norm_num)]
    unfold recordRow
    rfl
  · have e0 : parse_value sampleState.vars "2800" = .ok (((2800 : ℕ) : ℚ)) := rfl
    have e1 : parse_value sampleState.vars "2560" = .ok (((2560 : ℕ) : ℚ)) := rfl
    have e2 : parse_value sampleState.vars "5%" = .ok (((5 : ℕ) : ℚ) / 100) := rfl
    have hc : cmd_check_range sampleState ["2800", "2560", "5%"]
        = if ((2560 : ℕ) : ℚ) - ((2560 : ℕ) : ℚ) * (((5 : ℕ) : ℚ) / 100) ≤ ((2800 : ℕ) : ℚ) ∧
             ((2800 : ℕ) : ℚ) ≤ ((2560 : ℕ) : ℚ) + ((2560 : ℕ) : ℚ) * (((5 : ℕ) : ℚ) / 100)
          then recordRow sampleState
                 ("[" ++ fmt4 (((2560 : ℕ) : ℚ) - ((2560 : ℕ) : ℚ) * (((5 : ℕ) : ℚ) / 100)) ++ ", " ++
                   fmt4 (((2560 : ℕ) : ℚ) + ((2560 : ℕ) : ℚ) * (((5 : ℕ) : ℚ) / 100)) ++ "]")
                 (fmt4 ((2800 : ℕ) : ℚ))
          else errorRec (recordRow sampleState
                 ("[" ++ fmt4 (((2560 : ℕ) : ℚ) - ((2560 : ℕ) : ℚ) * (((5 : ℕ) : ℚ) / 100)) ++ ", " ++
                   fmt4 (((2560 : ℕ) : ℚ) + ((2560 : ℕ) : ℚ) * (((5 : ℕ) : ℚ) / 100)) ++ "]")
                 (fmt4 ((2800 : ℕ) : ℚ)))
                 ("\x1b[91mFAIL\x1b[0m: " ++ "2800" ++ "(" ++ fmt4 ((2800 : ℕ) : ℚ) ++ ") 超出范围 [" ++
                   fmt4 (((2560 : ℕ) : ℚ) - ((2560 : ℕ) : ℚ) * (((5 : ℕ) : ℚ) / 100)) ++ ", " ++
                   fmt4 (((2560 : ℕ) : ℚ) + ((2560 : ℕ) : ℚ) * (((5 : ℕ) : ℚ) / 100)) ++
                   "] (期望: " ++ "2560" ++ " ±" ++ "5%" ++ ")") := by
      unfold cmd_check_range
      simp only [e0, e1, e2, Except.map]
      rfl
    have hnot : ¬ (((2560 : ℕ) : ℚ) - ((2560 : ℕ) : ℚ) * (((5 : ℕ) : ℚ) / 100) ≤ ((2800 : ℕ) : ℚ) ∧
        ((2800 : ℕ) : ℚ) ≤ ((2560 : ℕ) : ℚ) + ((2560 : ℕ) : ℚ) * (((5 : ℕ) : ℚ) / 100)) := by
      rintro ⟨-, hb⟩
      norm_num at hb
    rw [hc, if_neg hnot]
    have hrec : (recordRow sampleState
          ("[" ++ fmt4 (((2560 : ℕ) : ℚ) - ((2560 : ℕ) : ℚ) * (((5 : ℕ) : ℚ) / 100)) ++ ", " ++
            fmt4 (((2560 : ℕ) : ℚ) + ((2560 : ℕ) : ℚ) * (((5 : ℕ) : ℚ) / 100)) ++ "]")
          (fmt4 ((2800 : ℕ) : ℚ))).current_test_data
        = some {
            id := "T1",
            title := "t",
            result := "PASS",
            expected := ["[" ++ fmt4 (((2560 : ℕ) : ℚ) - ((2560 : ℕ) : ℚ) * (((5 : ℕ) : ℚ) / 100)) ++ ", " ++
              fmt4 (((2560 : ℕ) : ℚ) + ((2560 : ℕ) : ℚ) * (((5 : ℕ) : ℚ) / 100)) ++ "]"],
            actual := [fmt4 ((2800 : ℕ) : ℚ)],
            note := "" } := rfl
    rw [errorRec_fail hrec]
    rfl

theorem C5_witness :
    (cmd_check_range sampleState ["2580", "2560", "5%"]).current_test_data.map TestCase.result
      = some "PASS" :=
  (C5_check_range_semantics sampleState "2580" "2560" "5%" [] ((2580 : ℕ) : ℚ) ((2560 : ℕ) : ℚ)
    (((5 : ℕ) : ℚ) / 100) ⟨"T1", "t", "PASS", [], [], ""⟩ rfl rfl rfl rfl rfl).2.2.2.1

/-- C1.  A `CHECK_DIFF` whose three tokens parse takes its pass branch
    exactly when `|a-b| ≤ maxdiff`; on failure the open case's result is
    set to FAIL via `error`, and the dispatcher returns normally (the
    handler never propagates an exception), so the run loop continues with
    the next line of the same or a later case. -/
theorem C1_check_diff_semantics (s : RunnerState) (a0 a1 a2 : String) (rest : List String)
    (a b m : ℚ)
    (h0 : parse_value s.vars a0 = .ok a)
    (h1 : parse_value s.vars a1 = .ok b)
    (h2 : parse_value s.vars a2 = .ok m) :
    (|a - b| ≤ m →
      cmd_check_diff s (a0 :: a1 :: a2 :: rest)
        = recordRow s ("Diff <= " ++ fmt4 m) (fmt4 |a - b|)) ∧
    (¬ |a - b| ≤ m →
      cmd_check_diff s (a0 :: a1 :: a2 :: rest)
        = errorRec (recordRow s ("Diff <= " ++ fmt4 m) (fmt4 |a - b|))
            ("\x1b[91mFAIL\x1b[0m: 差异 " ++ fmt4 |a - b| ++ " > 允许值 " ++ fmt4 m)) ∧
    (¬ |a - b| ≤ m → ∀ c, s.current_test_data = some c →
      ∃ c', (cmd_check_diff s (a0 :: a1 :: a2 :: rest)).current_test_data = some c' ∧
        c'.result = "FAIL") ∧
    (∀ env line tok args2, tokenize line = tok :: args2 → toUpperS tok = "CHECK_DIFF" →
      execute_line env s line = .ok (cmd_check_diff s args2)) ∧
    (∀ env line tok lrest,
      tokenize (stripS line) = tok :: a0 :: a1 :: a2 :: rest →
      toUpperS tok = "CHECK_DIFF" →
      ¬ (stripS line = "" ∨ startsWithChar (stripS line) '#') →
      runLines env s (line :: lrest)
        = runLines env (cmd_check_diff s (a0 :: a1 :: a2 :: rest)) lrest) := by
  have hred : cmd_check_diff s (a0 :: a1 :: a2 :: rest)
      = if |a - b| ≤ m
        then recordRow s ("Diff <= " ++ fmt4 m) (fmt4 |a - b|)
        else errorRec (recordRow s ("Diff <= " ++ fmt4 m) (fmt4 |a - b|))
               ("\x1b[91mFAIL\x1b[0m: 差异 " ++ fmt4 |a - b| ++ " > 允许值 " ++ fmt4 m) := by
    unfold cmd_check_diff
    simp only [h0, h1, h2]
  refine ⟨?_, ?_, ?_, ?_, ?_⟩
  · intro hp
    rw [hred, if_pos hp]
  · intro hp
    rw [hred, if_neg hp]
  · intro hp c hc
    rw [hred, if_neg hp]
    have hrec : (recordRow s ("Diff <= " ++ fmt4 m) (fmt4 |a - b|)).current_test_data
        = some { c with expected := c.expected ++ ["Diff <= " ++ fmt4 m],
                        actual := c.actual ++ [fmt4 |a - b|] } := by
      unfold recordRow
      rw [hc]
    exact ⟨_, errorRec_fail hrec _, rfl⟩
  · intro env line tok args2 htok hU
    exact execute_line_dispatch_check_diff env s line tok args2 htok hU
  · intro env line tok lrest htok hU hns
    conv_lhs => rw [runLines]
    rw [if_neg hns,
      execute_line_dispatch_check_diff env s (stripS line) tok (a0 :: a1 :: a2 :: rest) htok hU]

theorem C1_witness :
    cmd_check_diff sampleState ["3", "3", "0.5"]
      = recordRow sampleState
          ("Diff <= " ++ fmt4 (((0 : ℕ) : ℚ) + ((5 : ℕ) : ℚ) / (10 : ℚ) ^ (1 : ℕ)))
          (fmt4 |((3 : ℕ) : ℚ) - ((3 : ℕ) : ℚ)|) :=
  (C1_check_diff_semantics sampleState "3" "3" "0.5" [] ((3 : ℕ) : ℚ) ((3 : ℕ) : ℚ)
    (((0 : ℕ) : ℚ) + ((5 : ℕ) : ℚ) / (10 : ℚ) ^ (1 : ℕ)) rfl rfl rfl).1
    (by rw [sub_self, abs_zero]; positivity)

/-- A script line that does not dispatch to `cmd_test`. -/
def nonTestLine (line : String) : Prop :=
  ∀ tok args, tokenize (stripS line) = tok :: args → toUpperS tok ≠ "TEST"

lemma runLines_frame (env : Env) : ∀ (lines : List String) (s s' : RunnerState),
    (∀ l ∈ lines, nonTestLine l) → runLines env s lines = .ok s' → Frame s s' := by
  intro lines
  induction lines with
  | nil =>
      intro s s' _ h
      unfold runLines at h
      injection h with h
      subst h
      exact frame_refl s
  | cons l rest ih =>
      intro s s' hnt h
      unfold runLines at h
      dsimp only at h
      by_cases hskip : stripS l = "" ∨ startsWithChar (stripS l) '#'
      · rw [if_pos hskip] at h
        exact ih s s' (fun x hx => hnt x (List.mem_cons_of_mem l hx)) h
      · rw [if_neg hskip] at h
        cases hex : execute_line env s (stripS l) with
        | ok s1 =>
            rw [hex] at h
            have hf : frameOut s (execute_line env s (stripS l)) :=
              frameOut_execute_line env s (stripS l) (hnt l (List.mem_cons_self l rest))
            rw [hex] at hf
            exact frame_trans hf (ih s1 s' (fun x hx => hnt x (List.mem_cons_of_mem l hx)) h)
        | abort k s1 =>
            rw [hex] at h
            exact (ExecOut.noConfusion h)

/-- C6.  Within one open case, once the result is FAIL no later non-`TEST`
    command execution resets it to PASS: after any run of non-`TEST` lines
    the still-open case has the same id and title and result FAIL.  (At
    most one case is open at any time by construction: the whole runner
    state carries a single `Option TestCase`, exactly like the single
    `current_test_data` slot of the source.) -/
theorem C6_fail_is_sticky (env : Env) (lines : List String) (s s' : RunnerState) (c : TestCase)
    (hopen : s.current_test_data = some c)
    (hfail : c.result = "FAIL")
    (hnt : ∀ l ∈ lines, nonTestLine l)
    (hrun : runLines env s lines = .ok s') :
    ∃ c', s'.current_test_data = some c' ∧ c'.id = c.id ∧ c'.title = c.title ∧
      c'.result = "FAIL" := by
  obtain ⟨-, -, -, h4⟩ := runLines_frame env lines s s' hnt hrun
  rcases h4 with ⟨ha, -⟩ | ⟨d, d', hd, hd', hs⟩
  · rw [hopen] at ha
    exact (Option.noConfusion ha)
  · rw [hopen] at hd
    injection hd with hd
    subst hd
    exact ⟨d', hd', hs.1, hs.2.1, hs.2.2 hfail⟩

/-- A state with one open case already failed, for the C6 witness. -/
def failedState : RunnerState :=
  { initialState with current_test_data := some ⟨"T1", "t", "FAIL", [], [], ""⟩,
                      current_test_id := "T1", current_test_title := "t" }

theorem C6_witness :
    (cmd_config failedState ["RES_PORT", "COM3"]).current_test_data.map TestCase.result
      = some "FAIL" := by
  obtain ⟨c', hc', -, -, hres⟩ :=
    C6_fail_is_sticky env0 ["CONFIG RES_PORT COM3"] failedState
      (cmd_config failedState ["RES_PORT", "COM3"]) ⟨"T1", "t", "FAIL", [], [], ""⟩
      rfl rfl
      (by
        intro l hl
        rw [List.mem_singleton] at hl
        subst hl
        intro tok args htok
        have he : tokenize (stripS "CONFIG RES_PORT COM3") = ["CONFIG", "RES_PORT", "COM3"] := rfl
        rw [he] at htok
        injection htok with h1 h2
        rw [← h1]
        decide)
      rfl
  rw [hc']
  simp [hres]

/-- C10.  An error recorded while no case is open does not touch the
    (absent) case data or the finalized list, but is tracked in
    `failed_tests` under the initial placeholder id `N/A`; a run consisting
    only of such an error completes normally with the failure status and
    generates no report. -/
theorem C10_error_before_any_test (s : RunnerState) (msg : String)
    (hnone : s.current_test_data = none) :
    ((errorRec s msg).test_results = s.test_results ∧
     (errorRec s msg).current_test_data = none ∧
     (errorRec s msg).failed_tests
        = (if s.current_test_id ∈ s.failed_tests then s.failed_tests
           else s.failed_tests ++ [s.current_test_id ++ " (" ++ s.current_test_title ++ ")"])) ∧
    (runScript env0 ["SET_VAR $x 1"]).outcome = .normal ∧
    (runScript env0 ["SET_VAR $x 1"]).exitCode = 1 ∧
    (runScript env0 ["SET_VAR $x 1"]).reportGenerated = false ∧
    (runScript env0 ["SET_VAR $x 1"]).finalized = [] ∧
    (runScript env0 ["SET_VAR $x 1"]).final.failed_tests = ["N/A ()"] := by
  refine ⟨⟨?_, ?_, ?_⟩, rfl, rfl, rfl, rfl, rfl⟩
  · rw [errorRec_none hnone]
  · rw [errorRec_none hnone]
    exact hnone
  · rw [errorRec_none hnone]

theorem C10_witness :
    (errorRec initialState "boom").test_results = initialState.test_results :=
  ((C10_error_before_any_test initialState "boom" rfl).1).1

/-- C3 (amended).  Exit codes of `TestRunner.run`: 0 for a normal
    completion with no failed case, 1 for a normal completion with failed
    cases, 130 for an operator interrupt, and 1 — the same value as the
    normal-failure code — for a fatal uncaught error.  (A second interrupt
    during the emergency power-off escapes the handler; CPython then dies
    on SIGINT, shell status 130.) -/
theorem C3_exit_codes (env : Env) (script : List String) :
    ((runScript env script).outcome = .normal →
       (runScript env script).exitCode
         = if (runScript env script).final.failed_tests = [] then 0 else 1) ∧
    ((runScript env script).outcome = .interrupted → (runScript env script).exitCode = 130) ∧
    ((runScript env script).outcome = .crashed → (runScript env script).exitCode = 1) ∧
    ((runScript env script).outcome = .cleanupInterrupted →
       (runScript env script).exitCode = 130) := by
  unfold runScript
  cases hr : runLines env initialState script with
  | ok s =>
      dsimp only
      refine ⟨?_, ?_, ?_, ?_⟩ <;> intro h <;> first | rfl | exact (Outcome.noConfusion h)
  | abort k s =>
      dsimp only
      cases hp : cmd_power_off env s [] with
      | ok s1 =>
          dsimp only
          cases k with
          | interrupt =>
              dsimp only
              refine ⟨?_, ?_, ?_, ?_⟩ <;> intro h <;>
                first | rfl | exact (Outcome.noConfusion h)
          | fatal =>
              dsimp only
              refine ⟨?_, ?_, ?_, ?_⟩ <;> intro h <;>
                first | rfl | exact (Outcome.noConfusion h)
      | abort k1 s1 =>
          dsimp only
          refine ⟨?_, ?_, ?_, ?_⟩ <;> intro h <;>
            first | rfl | exact (Outcome.noConfusion h)

theorem C3_witness :
    (runScript env0 []).exitCode
      = if (runScript env0 []).final.failed_tests = [] then 0 else 1 :=
  (C3_exit_codes env0 []).1 rfl

/-- C3 counterexample: a fatal uncaught error (`WAIT` with no argument)
    and a normal completion with a failing case both terminate with exit
    status 1, so the crash code and the normal-failure code do not differ. -/
theorem C3_counterexample :
    (runScript env0 ["WAIT"]).outcome = .crashed ∧
    (runScript env0 ["TEST T1 t", "FOO"]).outcome = .normal ∧
    (runScript env0 ["TEST T1 t", "FOO"]).final.failed_tests = ["T1 (t)"] ∧
    (runScript env0 ["WAIT"]).exitCode = 1 ∧
    (runScript env0 ["TEST T1 t", "FOO"]).exitCode = 1 :=
  ⟨rfl, rfl, rfl, rfl, rfl⟩

/-- C9 (amended).  A wrong argument count is recorded against the open
    case and execution continues for the commands that check their
    argument lists (`DEF_VAR`, `CONFIG`, `READ`, `SET_VAR`) or run inside
    a catch-all (`CHECK_RANGE`, `CHECK_DIFF`); but `TEST`, `RES_SET` and
    `WAIT` read `args[0]` unguarded, so with no argument they raise an
    uncaught `IndexError` that aborts the whole run (`TEST` does so after
    having already finalized the previously open case). -/
theorem C9_wrong_arg_count (env : Env) (s : RunnerState) :
    execute_line env s "DEF_VAR"
      = .ok (errorRec s "DEF_VAR指令缺少参数。格式: DEF_VAR <$VAR> [Value]") ∧
    execute_line env s "CONFIG" = .ok (errorRec s "CONFIG 指令缺少参数") ∧
    execute_line env s "READ"
      = .ok (errorRec s "READ指令格式错误。正确格式: READ <CH> TO <$VAR>") ∧
    execute_line env s "SET_VAR"
      = .ok (errorRec s "SET_VAR指令格式错误。正确格式: SET_VAR <$VAR> <Value>") ∧
    execute_line env s "CHECK_RANGE"
      = .ok (errorRec s "CHECK_RANGE 执行异常: list index out of range") ∧
    execute_line env s "CHECK_DIFF"
      = .ok (errorRec s "CHECK_DIFF 执行异常: list index out of range") ∧
    (∀ rest, runLines env s ("DEF_VAR" :: rest)
      = runLines env (errorRec s "DEF_VAR指令缺少参数。格式: DEF_VAR <$VAR> [Value]") rest) ∧
    execute_line env s "TEST"
      = .abort .fatal { s with test_results := s.test_results ++ s.current_test_data.toList } ∧
    execute_line env s "RES_SET" = .abort .fatal s ∧
    execute_line env s "WAIT" = .abort .fatal s ∧
    (∀ rest, runLines env s ("TEST" :: rest)
      = .abort .fatal { s with test_results := s.test_results ++ s.current_test_data.toList }) :=
  ⟨rfl, rfl, rfl, rfl, rfl, rfl, fun _ => rfl, rfl, rfl, rfl, fun _ => rfl⟩

/-- C9 counterexample: a `TEST` line with no arguments does not record an
    error and continue — it terminates the whole run through the fatal
    path (exit status 1), although the claim says a `TEST` command never
    fails. -/
theorem C9_counterexample :
    (runScript env0 ["TEST"]).outcome = .crashed ∧
    (runScript env0 ["TEST"]).exitCode = 1 ∧
    (runScript env0 ["TEST"]).reportGenerated = false :=
  ⟨rfl, rfl, rfl⟩

/-- C2 (amended).  Every well-formed `TEST` command finalizes exactly the
    previously open case (if any) before opening the new one, and a script
    executed to end-of-script yields a finalized list whose `(id, title)`s
    are exactly the `TEST` commands in script order with non-empty ids —
    except that the last open case is dropped when it is value-equal to an
    already-finalized case (the `not in` dict-value guard of
    `generate_report`), and a title is empty when its `TEST` command had
    no title tokens. -/
theorem C2_test_finalization (env : Env) (script : List String) (s' : RunnerState)
    (hrun : runLines env initialState script = .ok s') :
    (∀ (st : RunnerState) (i : String) (irest : List String) (s1 : RunnerState),
       cmd_test st (i :: irest) = .ok s1 →
       s1.test_results = st.test_results ++ st.current_test_data.toList) ∧
    ((finalizeResults s').map idTitle = testsOf script ∨
      ((finalizeResults s').map idTitle = (testsOf script).dropLast ∧
        ∃ c, s'.current_test_data = some c ∧ c ∈ s'.test_results)) ∧
    (∀ p ∈ testsOf script, p.1 ≠ "") := by
  refine ⟨?_, ?_, testsOf_fst_ne script⟩
  · intro st i irest s1 h
    unfold cmd_test at h
    dsimp only at h
    injection h with h
    subst h
    rfl
  · have htr := runLines_trace env script initialState s' hrun
    have h0 : trace initialState = [] := rfl
    rw [h0] at htr
    simp only [List.nil_append] at htr
    rcases finalize_trace s' with h | ⟨h, hc⟩
    · left
      rw [h, htr]
    · right
      exact ⟨by rw [h, htr], hc⟩

theorem C2_witness :
    ({ initialState with
        current_test_id := "T2", current_test_title := "",
        current_test_data := some ⟨"T2", "", "PASS", [], [], ""⟩ } : RunnerState).test_results
      = initialState.test_results ++ initialState.current_test_data.toList :=
  (C2_test_finalization env0 [] initialState rfl).1 initialState "T2" []
    { initialState with
        current_test_id := "T2", current_test_title := "",
        current_test_data := some ⟨"T2", "", "PASS", [], [], ""⟩ } rfl

/-- C2 counterexample: the script `TEST T1` / `TEST T1` has two `TEST`
    commands and runs to end-of-script, but the finalized list has one
    entry, not two (the second, value-equal open case is dropped by the
    `not in` guard), and that entry's title is empty. -/
theorem C2_counterexample :
    (runScript env0 ["TEST T1", "TEST T1"]).outcome = .normal ∧
    testsOf ["TEST T1", "TEST T1"] = [("T1", ""), ("T1", "")] ∧
    (runScript env0 ["TEST T1", "TEST T1"]).finalized
      = [{ id := "T1", title := "", result := "PASS", expected := [], actual := [], note := "" }] :=
  ⟨rfl, rfl, rfl⟩

/-- C8 (amended).  For a `READ` into a defined variable: a failed
    invocation (nonzero exit or spawn failure) is recorded by the invoker
    and the variable is untouched; non-empty output is either parsed and
    stored or recorded as a non-numeric-output error; an interrupt
    propagates.  But an invocation that succeeds with EMPTY stdout is
    silently skipped by the `if output:` truthiness guard: nothing is
    recorded and the variable is untouched. -/
theorem C8_read_semantics (env : Env) (s : RunnerState) (ch name : String) (w : ℚ)
    (hpre : startsWithChar name '$' = true)
    (hdef : lookupVar s.vars name = some w) :
    (∀ e, env.tool s.toolIdx = .failure e →
       cmd_read env s [ch, "TO", name]
         = .ok (errorRec { s with toolIdx := s.toolIdx + 1 }
             ("工具执行失败 [" ++ ("读取通道 " ++ ofChars (removePair 'c' 'h' (removePair 'C' 'H' ch.data)))
               ++ "]: " ++ stripS e))) ∧
    (∀ m, env.tool s.toolIdx = .excFail m →
       cmd_read env s [ch, "TO", name]
         = .ok (errorRec { s with toolIdx := s.toolIdx + 1 }
             ("系统异常 [" ++ ("读取通道 " ++ ofChars (removePair 'c' 'h' (removePair 'C' 'H' ch.data)))
               ++ "]: " ++ m))) ∧
    (∀ out, env.tool s.toolIdx = .success out → stripS out = "" →
       cmd_read env s [ch, "TO", name] = .ok { s with toolIdx := s.toolIdx + 1 }) ∧
    (∀ out v, env.tool s.toolIdx = .success out → stripS out ≠ "" →
       parseFloatS (stripS out) = some v →
       cmd_read env s [ch, "TO", name]
         = .ok { s with toolIdx := s.toolIdx + 1, vars := setStore s.vars name v }) ∧
    (∀ out, env.tool s.toolIdx = .success out → stripS out ≠ "" →
       parseFloatS (stripS out) = none →
       cmd_read env s [ch, "TO", name]
         = .ok (errorRec { s with toolIdx := s.toolIdx + 1 }
             ("读取失败，返回值非数字: " ++ stripS out))) ∧
    (env.tool s.toolIdx = .interrupt →
       cmd_read env s [ch, "TO", name] = .abort .interrupt { s with toolIdx := s.toolIdx + 1 }) ∧
    (∀ st msg, (errorRec st msg).vars = st.vars) := by
  have hbase : cmd_read env s [ch, "TO", name]
      = (match run_external_tool env s
            ("读取通道 " ++ ofChars (removePair 'c' 'h' (removePair 'C' 'H' ch.data))) with
         | .interrupted s1 => .abort .interrupt s1
         | .ret s1 none => .ok s1
         | .ret s1 (some output) =>
             if output = "" then .ok s1
             else match parseFloatS output with
                  | some v => .ok { s1 with vars := setStore s1.vars name v }
                  | none => .ok (errorRec s1 ("读取失败，返回值非数字: " ++ output))) := by
    unfold cmd_read
    dsimp only
    rw [if_neg (by decide : ¬ ((!(toUpperS "TO" = "TO" : Bool)) = true))]
    rw [hpre]
    rw [if_neg (by decide : ¬ ((!(true : Bool)) = true))]
    rw [hdef]
    rw [if_neg (by simp : ¬ ((Option.isNone (some w)) = true))]
  refine ⟨?_, ?_, ?_, ?_, ?_, ?_, fun st msg => errorRec_vars st msg⟩
  · intro e he
    rw [hbase]
    unfold run_external_tool
    dsimp only
    rw [he]
  · intro m hm
    rw [hbase]
    unfold run_external_tool
    dsimp only
    rw [hm]
  · intro out ho hempty
    rw [hbase]
    unfold run_external_tool
    dsimp only
    rw [ho]
    dsimp only
    rw [if_pos hempty]
  · intro out v ho hne hp
    rw [hbase]
    unfold run_external_tool
    dsimp only
    rw [ho]
    dsimp only
    rw [if_neg hne, hp]
  · intro out ho hne hp
    rw [hbase]
    unfold run_external_tool
    dsimp only
    rw [ho]
    dsimp only
    rw [if_neg hne, hp]
  · intro hi
    rw [hbase]
    unfold run_external_tool
    dsimp only
    rw [hi]

/-- A state with `$v` defined (value 7) and an open passing case. -/
def readState : RunnerState :=
  { initialState with vars := [("$v", (7 : ℚ))],
                      current_test_data := some ⟨"T1", "t", "PASS", [], [], ""⟩,
                      current_test_id := "T1", current_test_title := "t" }

/-- C8 counterexample: the scope tool exits 0 with empty stdout; the
    output is not parseable as a float, yet nothing is recorded against
    the open case (`failed_tests` stays empty, the case stays PASS) and
    the variable keeps its value — the claim demanded an explicit record. -/
theorem C8_counterexample :
    cmd_read env0 readState ["CH1", "TO", "$v"] = .ok { readState with toolIdx := 1 } ∧
    parseFloatS "" = none ∧
    ({ readState with toolIdx := 1 } : RunnerState).failed_tests = [] ∧
    ({ readState with toolIdx := 1 } : RunnerState).current_test_data.map TestCase.result
      = some "PASS" ∧
    lookupVar ({ readState with toolIdx := 1 } : RunnerState).vars "$v" = some 7 :=
  ⟨rfl, rfl, rfl, rfl, rfl⟩

theorem C8_witness :
    cmd_read env1 readState ["CH1", "TO", "$v"]
      = .ok (errorRec { readState with toolIdx := readState.toolIdx + 1 }
          ("工具执行失败 [" ++ ("读取通道 " ++ ofChars (removePair 'c' 'h' (removePair 'C' 'H' "CH1".data)))
            ++ "]: " ++ stripS "boom")) :=
  (C8_read_semantics env1 readState "CH1" "$v" 7 rfl rfl).1 "boom" rfl
